import Mathlib

/-
Verification of the quota-aware shipment approval engine of the
Purchasing-App repository.  Weights, money and timestamps are modelled as
rationals (timestamps in days), dates-of-week are bucketed by a
Sunday-aligned week key, and the React reducer is modelled as a pure
function on the application state with the current time passed
explicitly.
-/

namespace PurchasingApp

/-! ## Data model (src/types/index.ts) -/

structure Product where
  id : String
  name : String
  minQuota : ℚ
  maxQuota : ℚ
  deriving DecidableEq

structure PurchaseItem where
  id : String
  sizeCategory : String
  pounds : ℚ
  cost : ℚ
  notes : Option String
  deriving DecidableEq

structure ProductPurchase where
  id : String
  productId : String
  customProductName : Option String
  totalPounds : ℚ
  items : List PurchaseItem
  deriving DecidableEq

inductive ApprovalStatus where
  | approved
  | pending
  | rejected
  deriving DecidableEq

structure Shipment where
  id : String
  shipper : String
  estimatedArrival : ℚ
  purchaseDate : ℚ
  weekStartDate : ℚ
  products : List ProductPurchase
  createdAt : ℚ
  approvalStatus : ApprovalStatus
  purchaseOrderNumber : Option String
  rejectedAt : Option ℚ
  purchaserId : Option String
  deriving DecidableEq

structure Purchase where
  id : String
  productId : String
  totalPounds : ℚ
  purchaseDate : ℚ
  weekStartDate : ℚ
  shipper : String
  estimatedArrival : ℚ
  items : List PurchaseItem
  createdAt : ℚ
  shipmentId : Option String
  deriving DecidableEq

structure WeeklyQuota where
  id : String
  productId : String
  weekStartDate : ℚ
  currentTotal : ℚ
  minQuota : ℚ
  maxQuota : ℚ
  deriving DecidableEq

structure AppState where
  products : List Product
  purchases : List Purchase
  shipments : List Shipment
  weeklyQuotas : List WeeklyQuota
  viewingWeekStart : ℚ
  deriving DecidableEq

/-! ## Date utilities (src/utils/dateUtils.ts)

Timestamps are rationals measured in days; by convention day 0 is a
Sunday, so the Sunday-aligned week containing day d is week ⌊d / 7⌋. -/

/-- startOfWeek with weekStartsOn = Sunday. -/
def getWeekStart (d : ℚ) : ℚ := 7 * (⌊d / 7⌋ : ℤ)

/-- Canonical identifier of the Sunday-aligned week containing d. -/
def getWeekKey (d : ℚ) : ℤ := ⌊d / 7⌋

/-! ## Purchase order utilities (src/utils/purchaseOrderUtils.ts) -/

/-- Calendar date fed to generatePurchaseOrderNumber (the source reads
new Date(); month is already 1-based as in getMonth() + 1). -/
structure PODate where
  year : Nat
  month : Nat
  day : Nat
  deriving DecidableEq

/-- JavaScript String.prototype.padStart with a pad character. -/
def padStart (s : String) (n : Nat) (c : Char) : String :=
  if n ≤ s.data.length then s else String.mk (List.replicate (n - s.data.length) c) ++ s

/-- JavaScript String.prototype.split on a single separator character. -/
def splitOnChar (sep : Char) : List Char → List (List Char)
  | [] => [[]]
  | c :: cs =>
    match splitOnChar sep cs with
    | [] => if c == sep then [[], []] else [[c]]
    | y :: ys => if c == sep then [] :: y :: ys else (c :: y) :: ys

def jsSplitDash (s : String) : List String :=
  (splitOnChar (Char.ofNat 45) s.data).map String.mk

/-- JavaScript String.prototype.startsWith. -/
def jsStartsWith (s pre : String) : Bool :=
  decide (s.data.take pre.data.length = pre.data)

def leadingDigits : List Char → List Char
  | [] => []
  | c :: cs => if c.isDigit then c :: leadingDigits cs else []

def digitsToNat (ds : List Char) : Nat :=
  ds.foldl (fun acc c => acc * 10 + (c.toNat - 48)) 0

/-- JavaScript parseInt(s, 10): skip leading whitespace, optional sign,
then the maximal run of decimal digits; NaN (none) when no digits. -/
def jsParseInt (s : String) : Option Int :=
  let cs := s.data.dropWhile (fun c => c == Char.ofNat 32 || c == Char.ofNat 9 ||
    c == Char.ofNat 10 || c == Char.ofNat 13)
  match cs with
  | c :: rest =>
    if c == Char.ofNat 45 then
      let ds := leadingDigits rest
      if ds.isEmpty then none else some (-(digitsToNat ds : Int))
    else if c == Char.ofNat 43 then
      let ds := leadingDigits rest
      if ds.isEmpty then none else some ((digitsToNat ds : Int))
    else
      let ds := leadingDigits cs
      if ds.isEmpty then none else some ((digitsToNat ds : Int))
  | [] => none

/-- Date part of the generated number: PO-YYYYMMDD (year unpadded,
month and day padded to two digits, as in the template literal). -/
def poDateTag (today : PODate) : String :=
  "PO-" ++ toString today.year ++ padStart (toString today.month) 2 (Char.ofNat 48) ++
    padStart (toString today.day) 2 (Char.ofNat 48)

/-- generatePurchaseOrderNumber: filters existing numbers by today's
date tag, folds the parseInt of the third dash-separated field into a
running maximum (skipping empty or non-numeric fields), and returns the
tag with the next sequence zero-padded to four digits. -/
def generatePurchaseOrderNumber (today : PODate) (existingPONumbers : List String) : String :=
  let dateTag := poDateTag today
  let todaysPONumbers := existingPONumbers.filter (fun po => jsStartsWith po dateTag)
  let maxSequence := todaysPONumbers.foldl (fun m po =>
    match (jsSplitDash po).get? 2 with
    | some sequencePart =>
      if sequencePart == "" then m
      else
        match jsParseInt sequencePart with
        | some sequence => if sequence > m then sequence else m
        | none => m
    | none => m) 0
  let nextSequence := maxSequence + 1
  dateTag ++ "-" ++ padStart (toString nextSequence) 4 (Char.ofNat 48)

/-- isValidPurchaseOrderNumber: the regex PO-(8 digits)-(4 digits),
anchored, expressed over the dash-separated fields. -/
def isValidPurchaseOrderNumber (poNumber : String) : Bool :=
  match jsSplitDash poNumber with
  | [a, b, c] =>
    a == "PO" && b.data.length == 8 && b.data.all Char.isDigit &&
      c.data.length == 4 && c.data.all Char.isDigit
  | _ => false

/-! ## The reducer (src AppState context: appReducer) -/

inductive AppAction where
  | ADD_PURCHASE (purchase : Purchase)
  | ADD_SHIPMENT (shipment : Shipment)
  | EDIT_SHIPMENT (shipment : Shipment)
  | DELETE_SHIPMENT (shipmentId : String)
  | REJECT_SHIPMENT (shipmentId : String)
  | UNREJECT_SHIPMENT (shipmentId : String)
  | DELETE_OLD_REJECTED
  | UPDATE_PRODUCT (product : Product)
  | SET_WEEKLY_QUOTA (quota : WeeklyQuota)
  | SET_VIEWING_WEEK (weekStart : ℚ)
  | NAVIGATE_WEEK (next : Bool)

/-- The per-product derived purchase record built in the ADD_SHIPMENT and
EDIT_SHIPMENT branches of the reducer. -/
def mkShipmentPurchase (sh : Shipment) (pp : ProductPurchase) : Purchase :=
  { id := sh.id ++ "_" ++ pp.id
    productId := pp.productId
    totalPounds := pp.totalPounds
    purchaseDate := sh.purchaseDate
    weekStartDate := sh.weekStartDate
    shipper := sh.shipper
    estimatedArrival := sh.estimatedArrival
    items := pp.items
    createdAt := sh.createdAt
    shipmentId := some sh.id }

/-- The derived purchases of a shipment: one per ProductPurchase, but only
when the shipment is not rejected. -/
def shipmentPurchases (sh : Shipment) : List Purchase :=
  if sh.approvalStatus != ApprovalStatus.rejected then
    sh.products.map (mkShipmentPurchase sh)
  else []

/-- appReducer; the reducer reads the wall clock (new Date()) in the
REJECT_SHIPMENT and DELETE_OLD_REJECTED branches, so the current time is
passed explicitly. -/
def appReducer (now : ℚ) (state : AppState) : AppAction → AppState
  | AppAction.ADD_PURCHASE purchase =>
    { state with purchases := state.purchases ++ [purchase] }
  | AppAction.ADD_SHIPMENT shipment =>
    { state with
      shipments := state.shipments ++ [shipment]
      purchases := state.purchases ++ shipmentPurchases shipment }
  | AppAction.EDIT_SHIPMENT shipment =>
    let filteredPurchases := state.purchases.filter (fun p => !(p.shipmentId == some shipment.id))
    { state with
      shipments := state.shipments.map (fun s => if s.id == shipment.id then shipment else s)
      purchases := filteredPurchases ++ shipmentPurchases shipment }
  | AppAction.DELETE_SHIPMENT shipmentId =>
    { state with
      shipments := state.shipments.filter (fun s => !(s.id == shipmentId))
      purchases := state.purchases.filter (fun p => !(p.shipmentId == some shipmentId)) }
  | AppAction.REJECT_SHIPMENT shipmentId =>
    match state.shipments.find? (fun s => s.id == shipmentId) with
    | none => state
    | some rejectedShipment =>
      let updatedShipment :=
        { rejectedShipment with
          approvalStatus := ApprovalStatus.rejected
          rejectedAt := some now }
      { state with
        shipments := state.shipments.map (fun s => if s.id == shipmentId then updatedShipment else s)
        purchases := state.purchases.filter (fun p => !(p.shipmentId == some shipmentId)) }
  | AppAction.UNREJECT_SHIPMENT shipmentId =>
    match state.shipments.find? (fun s => s.id == shipmentId) with
    | none => state
    | some rejectedShipment =>
      if rejectedShipment.approvalStatus != ApprovalStatus.rejected then state
      else
        let restoredShipment :=
          { rejectedShipment with
            approvalStatus := ApprovalStatus.pending
            rejectedAt := none }
        { state with
          shipments := state.shipments.map (fun s => if s.id == shipmentId then restoredShipment else s) }
  | AppAction.DELETE_OLD_REJECTED =>
    let thirtyDaysAgo := now - 30
    { state with
      shipments := state.shipments.filter (fun s =>
        if s.approvalStatus != ApprovalStatus.rejected then true
        else
          match s.rejectedAt with
          | none => true
          | some t => decide (t > thirtyDaysAgo)) }
  | AppAction.UPDATE_PRODUCT product =>
    { state with products := state.products.map (fun p => if p.id == product.id then product else p) }
  | AppAction.SET_WEEKLY_QUOTA quota =>
    { state with
      weeklyQuotas :=
        if state.weeklyQuotas.any (fun q =>
            q.productId == quota.productId && decide (q.weekStartDate = quota.weekStartDate)) then
          state.weeklyQuotas.map (fun q =>
            if q.productId == quota.productId && decide (q.weekStartDate = quota.weekStartDate) then
              quota
            else q)
        else state.weeklyQuotas ++ [quota] }
  | AppAction.SET_VIEWING_WEEK weekStart =>
    { state with viewingWeekStart := weekStart }
  | AppAction.NAVIGATE_WEEK next =>
    let newWeek := state.viewingWeekStart + (if next then (7 : ℚ) else -7)
    { state with viewingWeekStart := getWeekStart newWeek }

/-! ## Quota ledger (src AppState context: getQuotaStatus) -/

inductive QuotaStatusKind where
  | under
  | good
  | nearMax
  | over
  deriving DecidableEq

structure QuotaStatus where
  product : Product
  currentTotal : ℚ
  minQuota : ℚ
  maxQuota : ℚ
  percentage : ℚ
  status : QuotaStatusKind
  deriving DecidableEq

/-- The committed total of a product for the week of weekStart: the sum of
totalPounds over the stored purchases whose productId matches and whose
estimatedArrival falls in the same week (the inline filter-and-reduce of
getQuotaStatus). -/
def currentTotalFor (state : AppState) (productId : String) (weekStart : ℚ) : ℚ :=
  (state.purchases.filter (fun p =>
      p.productId == productId && (getWeekKey p.estimatedArrival == getWeekKey weekStart))).foldl
    (fun sum p => sum + p.totalPounds) 0

/-- getQuotaStatus; the source throws when the product is unknown, modelled
as none. -/
def getQuotaStatus (state : AppState) (productId : String) (weekStart : ℚ) : Option QuotaStatus :=
  match state.products.find? (fun p => p.id == productId) with
  | none => none
  | some product =>
    let currentTotal := currentTotalFor state productId weekStart
    let percentage := if product.maxQuota > 0 then currentTotal / product.maxQuota * 100 else 0
    let status :=
      if currentTotal > product.maxQuota then QuotaStatusKind.over
      else if percentage ≥ 90 then QuotaStatusKind.nearMax
      else if currentTotal ≥ product.minQuota then QuotaStatusKind.good
      else QuotaStatusKind.under
    some
      { product := product
        currentTotal := currentTotal
        minQuota := product.minQuota
        maxQuota := product.maxQuota
        percentage := percentage
        status := status }

/-! ## Shipment submission (PurchaseForm handleSubmit) -/

/-- The quota loop of handleSubmit: walk the form's products, skip "other",
and break out with true on the first product whose committed status is
near-max or over, or whose committed total plus this product's pounds
exceeds maxQuota.  none models the exception thrown when a product id is
not in the catalog. -/
def requiresApprovalLoop (state : AppState) (weekStart : ℚ) :
    List ProductPurchase → Option Bool
  | [] => some false
  | pp :: rest =>
    if pp.productId == "other" then requiresApprovalLoop state weekStart rest
    else
      match getQuotaStatus state pp.productId weekStart with
      | none => none
      | some qs =>
        if qs.status == QuotaStatusKind.nearMax || qs.status == QuotaStatusKind.over then
          some true
        else if qs.currentTotal + pp.totalPounds > qs.maxQuota then some true
        else requiresApprovalLoop state weekStart rest

/-- The PO numbers of all currently approved shipments carrying a (truthy,
hence nonempty) purchase order number. -/
def existingPONumbers (state : AppState) : List String :=
  (state.shipments.filter (fun s =>
      s.approvalStatus == ApprovalStatus.approved &&
        (match s.purchaseOrderNumber with
         | some po => po != ""
         | none => false))).filterMap Shipment.purchaseOrderNumber

/-- JavaScript a || b for optional strings (empty string is falsy). -/
def jsOrElse (a : Option String) (b : Option String) : Option String :=
  match a with
  | some s => if s == "" then b else some s
  | none => b

/-- handleSubmit after form validation: computes the approval decision
from the committed purchases, builds the shipment record, and dispatches
EDIT_SHIPMENT when editing, otherwise ADD_SHIPMENT.  Returns the shipment
together with the next state; none models the exception thrown when a
product id is not in the catalog. -/
def handleSubmit (state : AppState) (now : ℚ) (editingShipment : Option Shipment)
    (newId shipper : String) (estimatedArrival : ℚ) (products : List ProductPurchase)
    (today : PODate) (userId : Option String) : Option (Shipment × AppState) :=
  let weekStart := getWeekStart estimatedArrival
  match requiresApprovalLoop state weekStart products with
  | none => none
  | some requiresApproval =>
    let approvalStatus :=
      if requiresApproval then ApprovalStatus.pending else ApprovalStatus.approved
    let purchaseOrderNumber :=
      if approvalStatus == ApprovalStatus.approved then
        some (generatePurchaseOrderNumber today (existingPONumbers state))
      else none
    let shipmentId := match editingShipment with | some e => e.id | none => newId
    let shipment : Shipment :=
      { id := shipmentId
        shipper := shipper
        estimatedArrival := estimatedArrival
        purchaseDate := match editingShipment with | some e => e.purchaseDate | none => now
        weekStartDate := weekStart
        products := products
        createdAt := match editingShipment with | some e => e.createdAt | none => now
        approvalStatus := approvalStatus
        purchaseOrderNumber := purchaseOrderNumber
        rejectedAt := none
        purchaserId := jsOrElse (editingShipment.bind Shipment.purchaserId) userId }
    match editingShipment with
    | some _ => some (shipment, appReducer now state (AppAction.EDIT_SHIPMENT shipment))
    | none => some (shipment, appReducer now state (AppAction.ADD_SHIPMENT shipment))

/-- handleApproveShipment (PendingPurchases): generates a PO number from
the currently approved shipments, marks the shipment approved, and
dispatches EDIT_SHIPMENT.  No existence or legality check is performed. -/
def handleApproveShipment (state : AppState) (now : ℚ) (shipment : Shipment)
    (today : PODate) : AppState :=
  let purchaseOrderNumber := generatePurchaseOrderNumber today (existingPONumbers state)
  let approvedShipment :=
    { shipment with
      approvalStatus := ApprovalStatus.approved
      purchaseOrderNumber := some purchaseOrderNumber }
  appReducer now state (AppAction.EDIT_SHIPMENT approvedShipment)

/-! ## Claim-side characterizations -/

/-- Claim-side additive form of the committed bucket total: each purchase
contributes its totalPounds when it matches the product and week. -/
def bucketTot (productId : String) (weekStart : ℚ) : List Purchase → ℚ
  | [] => 0
  | p :: ps =>
    (if p.productId == productId && (getWeekKey p.estimatedArrival == getWeekKey weekStart) then
      p.totalPounds
    else 0) + bucketTot productId weekStart ps

/-- Claim-side per-product trigger of the approval requirement: the product
is not "other", and its committed quota status is near-max or over, or its
committed total plus this product's pounds exceeds maxQuota. -/
def productTriggersApprovalB (state : AppState) (weekStart : ℚ) (pp : ProductPurchase) : Bool :=
  !(pp.productId == "other") &&
    (match getQuotaStatus state pp.productId weekStart with
     | some qs =>
       qs.status == QuotaStatusKind.nearMax || qs.status == QuotaStatusKind.over ||
         decide (qs.currentTotal + pp.totalPounds > qs.maxQuota)
     | none => false)

/-- Claim-side description of the entries generatePurchaseOrderNumber
actually takes into account: those starting with today's date tag whose
third dash-separated field is nonempty and parses under parseInt. -/
def consideredSequences (dateTag : String) (existing : List String) : List Int :=
  existing.filterMap (fun po =>
    if jsStartsWith po dateTag then
      match (jsSplitDash po).get? 2 with
      | some sp => if sp == "" then none else jsParseInt sp
      | none => none
    else none)

/-- Any number of retention sweeps, one per listed time. -/
def runSweeps (state : AppState) (times : List ℚ) : AppState :=
  times.foldl (fun st t => appReducer t st AppAction.DELETE_OLD_REJECTED) state

/-! ## Spec-side transition model for the failure-semantics claim -/

inductive TransitionError where
  | notFoundError
  | invalidTransitionError
  deriving DecidableEq

deriving instance DecidableEq for Except

/-- Modelled from the spec: the spec's failure semantics for the unreject
transition (validate existence, then current-state legality, then perform
the transition); the repository's reducer has no such error channel, so
this definition exists only to be compared with it. -/
def specUnrejectTransition (state : AppState) (shipmentId : String) :
    Except TransitionError AppState :=
  match state.shipments.find? (fun s => s.id == shipmentId) with
  | none => Except.error TransitionError.notFoundError
  | some sh =>
    if sh.approvalStatus != ApprovalStatus.rejected then
      Except.error TransitionError.invalidTransitionError
    else
      Except.ok (appReducer 0 state (AppAction.UNREJECT_SHIPMENT shipmentId))

/-! ## Concrete instances used by witnesses and counterexamples -/

def exTuna : Product :=
  { id := "tuna", name := "Tuna", minQuota := 0, maxQuota := 100 }

def exToday : PODate := { year := 2026, month := 1, day := 1 }

def exC1PP : ProductPurchase :=
  { id := "s1_0", productId := "tuna", customProductName := none, totalPounds := 10, items := [] }

def exC1State : AppState :=
  { products := [exTuna], purchases := [], shipments := [], weeklyQuotas := [],
    viewingWeekStart := 0 }

def exC1Sh : Shipment :=
  { id := "s1", shipper := "S", estimatedArrival := 3, purchaseDate := 0, weekStartDate := 0,
    products := [exC1PP], createdAt := 0, approvalStatus := ApprovalStatus.approved,
    purchaseOrderNumber := some "PO-20260101-0001", rejectedAt := none, purchaserId := none }

def exC1St : AppState :=
  { products := [exTuna], purchases := shipmentPurchases exC1Sh, shipments := [exC1Sh],
    weeklyQuotas := [], viewingWeekStart := 0 }

def exC2PP : ProductPurchase :=
  { id := "a1_0", productId := "tuna", customProductName := none, totalPounds := 10, items := [] }

def exC2PP2 : ProductPurchase :=
  { id := "a1_0", productId := "tuna", customProductName := none, totalPounds := 200, items := [] }

def exC2Sh : Shipment :=
  { id := "a1", shipper := "S", estimatedArrival := 3, purchaseDate := 0, weekStartDate := 0,
    products := [exC2PP], createdAt := 0, approvalStatus := ApprovalStatus.approved,
    purchaseOrderNumber := some "PO-20260101-0001", rejectedAt := none, purchaserId := none }

def exC2State : AppState :=
  { products := [exTuna], purchases := shipmentPurchases exC2Sh, shipments := [exC2Sh],
    weeklyQuotas := [], viewingWeekStart := 0 }

def exC2Sh2 : Shipment :=
  { id := "a1", shipper := "S", estimatedArrival := 3, purchaseDate := 0, weekStartDate := 0,
    products := [exC2PP2], createdAt := 0, approvalStatus := ApprovalStatus.pending,
    purchaseOrderNumber := none, rejectedAt := none, purchaserId := none }

def exC2St2 : AppState :=
  { products := [exTuna], purchases := shipmentPurchases exC2Sh2, shipments := [exC2Sh2],
    weeklyQuotas := [], viewingWeekStart := 0 }

def exC3PP : ProductPurchase :=
  { id := "r1_0", productId := "tuna", customProductName := none, totalPounds := 10, items := [] }

def exC3Sh : Shipment :=
  { id := "r1", shipper := "S", estimatedArrival := 3, purchaseDate := 0, weekStartDate := 0,
    products := [exC3PP], createdAt := 0, approvalStatus := ApprovalStatus.pending,
    purchaseOrderNumber := none, rejectedAt := none, purchaserId := none }

def exC3State : AppState :=
  { products := [exTuna], purchases := shipmentPurchases exC3Sh, shipments := [exC3Sh],
    weeklyQuotas := [], viewingWeekStart := 0 }

def exC3Sh1 : Shipment :=
  { exC3Sh with approvalStatus := ApprovalStatus.rejected, rejectedAt := some 5 }

def exC3S1 : AppState :=
  { products := [exTuna], purchases := [], shipments := [exC3Sh1], weeklyQuotas := [],
    viewingWeekStart := 0 }

def exC3S2 : AppState :=
  { products := [exTuna], purchases := [], shipments := [exC3Sh], weeklyQuotas := [],
    viewingWeekStart := 0 }

def exC3ShA : Shipment :=
  { exC3Sh with
    approvalStatus := ApprovalStatus.approved
    purchaseOrderNumber := some "PO-20260101-0001" }

def exC3S3 : AppState :=
  { products := [exTuna], purchases := shipmentPurchases exC3ShA, shipments := [exC3ShA],
    weeklyQuotas := [], viewingWeekStart := 0 }

def exC4Purchase : Purchase :=
  { id := "q1", productId := "tuna", totalPounds := 95, purchaseDate := 0, weekStartDate := 0,
    shipper := "S", estimatedArrival := 3, items := [], createdAt := 0, shipmentId := none }

def exC4State : AppState :=
  { products := [exTuna], purchases := [exC4Purchase], shipments := [], weeklyQuotas := [],
    viewingWeekStart := 0 }

def exC4QS : QuotaStatus :=
  { product := exTuna, currentTotal := 95, minQuota := 0, maxQuota := 100, percentage := 95,
    status := QuotaStatusKind.nearMax }

def exTuna10 : Product :=
  { id := "tuna", name := "Tuna", minQuota := 10, maxQuota := 100 }

def exC6Quota : WeeklyQuota :=
  { id := "wq1", productId := "tuna", weekStartDate := 0, currentTotal := 0, minQuota := 1,
    maxQuota := 2 }

def exC6Purchase : Purchase :=
  { id := "q6", productId := "tuna", totalPounds := 5, purchaseDate := 0, weekStartDate := 0,
    shipper := "S", estimatedArrival := 3, items := [], createdAt := 0, shipmentId := none }

def exC6State : AppState :=
  { products := [exTuna10], purchases := [exC6Purchase], shipments := [],
    weeklyQuotas := [exC6Quota], viewingWeekStart := 0 }

def exC6QS : QuotaStatus :=
  { product := exTuna10, currentTotal := 5, minQuota := 10, maxQuota := 100, percentage := 5,
    status := QuotaStatusKind.under }

def exC7Sh : Shipment :=
  { id := "p1", shipper := "S", estimatedArrival := 3, purchaseDate := 0, weekStartDate := 0,
    products := [], createdAt := 0, approvalStatus := ApprovalStatus.pending,
    purchaseOrderNumber := none, rejectedAt := none, purchaserId := none }

def exC7State : AppState :=
  { products := [exTuna], purchases := [], shipments := [exC7Sh], weeklyQuotas := [],
    viewingWeekStart := 0 }

def exC8Tuna : Product :=
  { id := "tuna", name := "Tuna", minQuota := 0, maxQuota := 40 }

def exC8PP : ProductPurchase :=
  { id := "s8_0", productId := "tuna", customProductName := none, totalPounds := 50, items := [] }

def exC8State : AppState :=
  { products := [exC8Tuna], purchases := [], shipments := [], weeklyQuotas := [],
    viewingWeekStart := 0 }

def exC8Sh : Shipment :=
  { id := "s8", shipper := "S", estimatedArrival := 3, purchaseDate := 0, weekStartDate := 0,
    products := [exC8PP], createdAt := 0, approvalStatus := ApprovalStatus.pending,
    purchaseOrderNumber := none, rejectedAt := none, purchaserId := none }

def exC10Sh : Shipment :=
  { id := "old", shipper := "S", estimatedArrival := 3, purchaseDate := 0, weekStartDate := 0,
    products := [], createdAt := 0, approvalStatus := ApprovalStatus.rejected,
    purchaseOrderNumber := none, rejectedAt := none, purchaserId := none }

def exC10State : AppState :=
  { products := [exTuna], purchases := [], shipments := [exC10Sh], weeklyQuotas := [],
    viewingWeekStart := 0 }

def exC9Old : Shipment :=
  { id := "old31", shipper := "S", estimatedArrival := 3, purchaseDate := 0, weekStartDate := 0,
    products := [], createdAt := 0, approvalStatus := ApprovalStatus.rejected,
    purchaseOrderNumber := none, rejectedAt := some 69, purchaserId := none }

def exC9New : Shipment :=
  { id := "new29", shipper := "S", estimatedArrival := 3, purchaseDate := 0, weekStartDate := 0,
    products := [], createdAt := 0, approvalStatus := ApprovalStatus.rejected,
    purchaseOrderNumber := none, rejectedAt := some 71, purchaserId := none }

def exC9State : AppState :=
  { products := [exTuna], purchases := [], shipments := [exC9Old, exC9New, exC7Sh],
    weeklyQuotas := [], viewingWeekStart := 0 }

/-! ## Helper lemmas -/

theorem foldl_add_totalPounds (l : List Purchase) (a : ℚ) :
    l.foldl (fun sum p => sum + p.totalPounds) a
      = a + l.foldl (fun sum p => sum + p.totalPounds) 0 := by
  induction l generalizing a with
  | nil => simp
  | cons p l ih =>
    simp only [List.foldl_cons]
    rw [ih (a + p.totalPounds), ih (0 + p.totalPounds)]
    ring

theorem currentTotalFor_eq_bucketTot (state : AppState) (pid : String) (w : ℚ) :
    currentTotalFor state pid w = bucketTot pid w state.purchases := by
  unfold currentTotalFor
  generalize state.purchases = l
  induction l with
  | nil => simp [bucketTot]
  | cons p l ih =>
    by_cases hc : (p.productId == pid && (getWeekKey p.estimatedArrival == getWeekKey w)) = true
    · rw [List.filter_cons, if_pos hc, List.foldl_cons, foldl_add_totalPounds]
      simp only [bucketTot, hc, if_true, ih]
      ring
    · rw [List.filter_cons, if_neg hc]
      simp only [bucketTot, hc, if_false, ih]
      simp

theorem bucketTot_append (pid : String) (w : ℚ) (l1 l2 : List Purchase) :
    bucketTot pid w (l1 ++ l2) = bucketTot pid w l1 + bucketTot pid w l2 := by
  induction l1 with
  | nil => simp [bucketTot]
  | cons p l ih =>
    simp only [List.cons_append, bucketTot, List.append_eq, ih]
    ring

theorem bucketTot_split (pid : String) (w : ℚ) (f : Purchase → Bool) (l : List Purchase) :
    bucketTot pid w l
      = bucketTot pid w (l.filter f) + bucketTot pid w (l.filter (fun p => !(f p))) := by
  induction l with
  | nil => simp [bucketTot]
  | cons p l ih =>
    by_cases hf : f p = true
    · rw [List.filter_cons, if_pos hf, List.filter_cons, if_neg (by simp [hf])]
      simp only [bucketTot, ih]
      ring
    · rw [List.filter_cons, if_neg hf, List.filter_cons, if_pos (by simp [hf])]
      simp only [bucketTot, ih]
      ring

theorem find?_map_replace (l : List Shipment) (key : String) (repl : Shipment)
    (hid : repl.id = key) :
    (l.map (fun s => if s.id == key then repl else s)).find? (fun s => s.id == key)
      = if l.any (fun s => s.id == key) then some repl else none := by
  induction l with
  | nil => simp
  | cons a l ih =>
    by_cases h : (a.id == key) = true
    · simp only [List.map_cons, if_pos h, List.any_cons, h, Bool.true_or, if_true,
        List.find?_cons]
      have hr : (repl.id == key) = true := by simp [hid]
      simp [hr]
    · simp only [List.map_cons, if_neg h, List.any_cons, List.find?_cons]
      have hb : (a.id == key) = false := by simpa using h
      simp only [hb, Bool.false_or]
      exact ih

theorem find?_map_replace_self (l : List Shipment) (repl : Shipment) :
    (l.map (fun s => if s.id == repl.id then repl else s)).find? (fun s => s.id == repl.id)
      = if l.any (fun s => s.id == repl.id) then some repl else none :=
  find?_map_replace l repl.id repl rfl

theorem requiresApprovalLoop_eq_any (state : AppState) (w : ℚ) :
    ∀ (l : List ProductPurchase) (b : Bool),
      requiresApprovalLoop state w l = some b →
      b = l.any (productTriggersApprovalB state w) := by
  intro l
  induction l with
  | nil =>
    intro b hb
    simp only [requiresApprovalLoop, Option.some.injEq] at hb
    simp [← hb]
  | cons pp rest ih =>
    intro b hb
    simp only [requiresApprovalLoop] at hb
    by_cases hother : (pp.productId == "other") = true
    · rw [if_pos hother] at hb
      have hrec := ih b hb
      simp [List.any_cons, productTriggersApprovalB, hother, ← hrec]
    · rw [if_neg hother] at hb
      cases hq : getQuotaStatus state pp.productId w with
      | none => simp only [hq] at hb; simp at hb
      | some qs =>
        simp only [hq] at hb
        by_cases h1 : (qs.status == QuotaStatusKind.nearMax
            || qs.status == QuotaStatusKind.over) = true
        · rw [if_pos h1] at hb
          simp only [Option.some.injEq] at hb
          simp [← hb, List.any_cons, productTriggersApprovalB, hother, hq, h1]
        · rw [if_neg h1] at hb
          by_cases h2 : qs.currentTotal + pp.totalPounds > qs.maxQuota
          · rw [if_pos h2] at hb
            simp only [Option.some.injEq] at hb
            simp [← hb, List.any_cons, productTriggersApprovalB, hother, hq, h2]
          · rw [if_neg h2] at hb
            have hrec := ih b hb
            have htrig : productTriggersApprovalB state w pp = false := by
              simp only [productTriggersApprovalB, hq]
              simp only [Bool.or_eq_true] at h1
              push_neg at h1
              simp [h1, h2, hother]
            simp [List.any_cons, htrig, ← hrec]

/-! ## C1 -/

/-- C1: for a new shipment submission, the approval decision is
all-or-nothing over the whole shipment: considering each ProductPurchase
except "other" ones, if any has committed quota status near-max or over at
the shipment's week, or its committed currentTotal plus this shipment's
totalPounds for that product exceeds maxQuota, the shipment is created
pending with no purchase order number; otherwise it is created approved
with a purchase order number.  The decision reads the pre-submission
store, hence excludes the shipment being submitted. -/
theorem C1_new_shipment_all_or_nothing
    (state : AppState) (now : ℚ) (newId shipper : String) (arrival : ℚ)
    (products : List ProductPurchase) (today : PODate) (userId : Option String)
    (sh : Shipment) (st2 : AppState)
    (h : handleSubmit state now none newId shipper arrival products today userId
      = some (sh, st2)) :
    (products.any (productTriggersApprovalB state (getWeekStart arrival)) = true →
      sh.approvalStatus = ApprovalStatus.pending ∧ sh.purchaseOrderNumber = none)
    ∧ (products.any (productTriggersApprovalB state (getWeekStart arrival)) = false →
      sh.approvalStatus = ApprovalStatus.approved ∧
        sh.purchaseOrderNumber
          = some (generatePurchaseOrderNumber today (existingPONumbers state)))
    ∧ st2.shipments = state.shipments ++ [sh]
    ∧ st2.purchases = state.purchases ++ shipmentPurchases sh := by
  simp only [handleSubmit] at h
  cases hr : requiresApprovalLoop state (getWeekStart arrival) products with
  | none => rw [hr] at h; simp at h
  | some req =>
    rw [hr] at h
    simp only [Option.some.injEq, Prod.mk.injEq] at h
    obtain ⟨hsh, hst⟩ := h
    have hb := requiresApprovalLoop_eq_any state (getWeekStart arrival) products req hr
    subst hsh
    subst hst
    cases req with
    | true =>
      refine ⟨fun _ => ⟨by simp, by simp⟩, fun hfalse => ?_, rfl, rfl⟩
      rw [← hb] at hfalse
      exact absurd hfalse (by simp)
    | false =>
      refine ⟨fun htrue => ?_, fun _ => ⟨by simp, by simp⟩, rfl, rfl⟩
      rw [← hb] at htrue
      exact absurd htrue (by simp)

/-- C1 witness: a one-product submission within quota is created approved,
with the first purchase order number of the day. -/
theorem C1_new_shipment_all_or_nothing_witness :
    exC1Sh.approvalStatus = ApprovalStatus.approved
      ∧ exC1Sh.purchaseOrderNumber = some "PO-20260101-0001"
      ∧ exC1St.shipments = exC1State.shipments ++ [exC1Sh] := by
  have h := C1_new_shipment_all_or_nothing exC1State 0 "s1" "S" 3 [exC1PP] exToday none
    exC1Sh exC1St (by with_unfolding_all decide)
  refine ⟨(h.2.1 (by with_unfolding_all decide)).1, ?_, h.2.2.1⟩
  have h2 := (h.2.1 (by with_unfolding_all decide)).2
  rw [h2]
  with_unfolding_all decide

/-! ## C2 -/

/-- C2 counterexample: the claim says an edit preserves the previous
approvalStatus and purchaseOrderNumber.  Editing the approved shipment a1
(PO-20260101-0001) so that its tuna line grows from 10 to 200 pounds
re-runs the approval decision: the stored shipment comes out pending with
no purchase order number, so the decision is re-run and the fields are not
preserved. -/
theorem C2_edit_preserves_counterexample :
    exC2Sh.approvalStatus = ApprovalStatus.approved
      ∧ exC2Sh.purchaseOrderNumber = some "PO-20260101-0001"
      ∧ (handleSubmit exC2State 1 (some exC2Sh) "x" "S" 3 [exC2PP2] exToday none).map
          (fun r => r.2.shipments.map (fun s => (s.approvalStatus, s.purchaseOrderNumber)))
        = some [(ApprovalStatus.pending, none)] := by
  with_unfolding_all decide

/-- C2 amended: editing a shipment re-derives weekStartDate from the new
estimatedArrival and replaces its derived purchases, but the approval
decision IS re-run against the store (whose purchase index still contains
the edited shipment's previous derived purchases): the stored shipment's
approvalStatus and purchaseOrderNumber are set afresh from that decision
rather than preserved. -/
theorem C2_edit_reruns_approval
    (state : AppState) (now : ℚ) (editing : Shipment) (newId shipper : String)
    (arrival : ℚ) (products : List ProductPurchase) (today : PODate)
    (userId : Option String) (sh2 : Shipment) (st2 : AppState) (req : Bool)
    (hmem : state.shipments.any (fun s => s.id == editing.id) = true)
    (hr : requiresApprovalLoop state (getWeekStart arrival) products = some req)
    (h : handleSubmit state now (some editing) newId shipper arrival products today userId
      = some (sh2, st2)) :
    st2.shipments.find? (fun s => s.id == editing.id) = some sh2
    ∧ sh2.weekStartDate = getWeekStart arrival
    ∧ sh2.products = products
    ∧ sh2.approvalStatus = (if req then ApprovalStatus.pending else ApprovalStatus.approved)
    ∧ sh2.purchaseOrderNumber = (if req then none
        else some (generatePurchaseOrderNumber today (existingPONumbers state)))
    ∧ st2.purchases
        = state.purchases.filter (fun p => !(p.shipmentId == some editing.id))
            ++ shipmentPurchases sh2 := by
  simp only [handleSubmit] at h
  rw [hr] at h
  simp only [Option.some.injEq, Prod.mk.injEq] at h
  obtain ⟨hsh, hst⟩ := h
  subst hst
  have hid : sh2.id = editing.id := by rw [← hsh]
  have hmem2 : (state.shipments.any fun s => s.id == sh2.id) = true := by
    rw [hid]; exact hmem
  refine ⟨?_, by rw [← hsh], by rw [← hsh], ?_, ?_, ?_⟩
  · rw [hsh, ← hid]
    exact (find?_map_replace_self state.shipments sh2).trans (if_pos hmem2)
  · rw [← hsh]
  · rw [← hsh]; cases req <;> simp
  · rw [hsh, ← hid]
    exact rfl

/-- C2 amended witness: the concrete edit of the counterexample, applied
through the amended theorem. -/
theorem C2_edit_reruns_approval_witness :
    exC2St2.shipments.find? (fun s => s.id == exC2Sh.id) = some exC2Sh2
      ∧ exC2Sh2.approvalStatus
          = (if true then ApprovalStatus.pending else ApprovalStatus.approved) := by
  have h := C2_edit_reruns_approval exC2State 1 exC2Sh "x" "S" 3 [exC2PP2] exToday none
    exC2Sh2 exC2St2 true (by with_unfolding_all decide) (by with_unfolding_all decide)
    (by with_unfolding_all decide)
  exact ⟨h.1, h.2.2.2.1⟩

/-! ## C3 -/

/-- C3: rejecting a stored shipment removes exactly its weight from every
product/week quota bucket while keeping the shipment record with status
rejected and rejectedAt stamped; unrejecting restores the record to
pending and clears rejectedAt but adds nothing back to any quota bucket;
approving it afterwards restores its weight, bringing every bucket back to
its pre-rejection total. -/
theorem C3_reject_unreject_approve_quota
    (s : AppState) (sh : Shipment) (t1 t2 t3 : ℚ) (today : PODate) (pid : String) (w : ℚ)
    (s1 s2 s3 : AppState) (sh1 sh2 : Shipment)
    (hfind : s.shipments.find? (fun x => x.id == sh.id) = some sh)
    (hstatus : sh.approvalStatus ≠ ApprovalStatus.rejected)
    (hpur : s.purchases.filter (fun p => p.shipmentId == some sh.id) = shipmentPurchases sh)
    (hsh1 : { sh with approvalStatus := ApprovalStatus.rejected, rejectedAt := some t1 } = sh1)
    (hsh2 : { sh with approvalStatus := ApprovalStatus.pending, rejectedAt := none } = sh2)
    (hs1 : appReducer t1 s (AppAction.REJECT_SHIPMENT sh.id) = s1)
    (hs2 : appReducer t2 s1 (AppAction.UNREJECT_SHIPMENT sh.id) = s2)
    (hs3 : handleApproveShipment s2 t3 sh2 today = s3) :
    currentTotalFor s1 pid w
        = currentTotalFor s pid w - bucketTot pid w (shipmentPurchases sh)
    ∧ s1.shipments.find? (fun x => x.id == sh.id) = some sh1
    ∧ currentTotalFor s2 pid w = currentTotalFor s1 pid w
    ∧ s2.shipments.find? (fun x => x.id == sh.id) = some sh2
    ∧ currentTotalFor s3 pid w = currentTotalFor s pid w := by
  subst hsh1
  subst hsh2
  have hany : (s.shipments.any fun x => x.id == sh.id) = true :=
    List.any_eq_true.mpr ⟨sh, List.mem_of_find?_eq_some hfind, by simp⟩
  have hs1eq : appReducer t1 s (AppAction.REJECT_SHIPMENT sh.id)
      = { s with
          shipments := s.shipments.map (fun x => if x.id == sh.id then
            { sh with approvalStatus := ApprovalStatus.rejected, rejectedAt := some t1 } else x)
          purchases := s.purchases.filter (fun p => !(p.shipmentId == some sh.id)) } := by
    simp only [appReducer, hfind]
  subst hs1
  rw [hs1eq] at hs2 ⊢
  have hfind1 : (s.shipments.map (fun x => if x.id == sh.id then
        { sh with approvalStatus := ApprovalStatus.rejected, rejectedAt := some t1 } else x)).find?
        (fun x => x.id == sh.id)
      = some { sh with approvalStatus := ApprovalStatus.rejected, rejectedAt := some t1 } :=
    (find?_map_replace s.shipments sh.id
      { sh with approvalStatus := ApprovalStatus.rejected, rejectedAt := some t1 } rfl).trans
      (if_pos hany)
  have hany1 : ((s.shipments.map (fun x => if x.id == sh.id then
        { sh with approvalStatus := ApprovalStatus.rejected, rejectedAt := some t1 } else x)).any
        (fun x => x.id == sh.id)) = true :=
    List.any_eq_true.mpr ⟨_, List.mem_of_find?_eq_some hfind1, by simp⟩
  have hsplit := bucketTot_split pid w (fun p => !(p.shipmentId == some sh.id)) s.purchases
  have hnn : s.purchases.filter (fun p => !(!(p.shipmentId == some sh.id)))
      = s.purchases.filter (fun p => (p.shipmentId == some sh.id)) := by
    simp only [Bool.not_not]
  rw [hnn, hpur] at hsplit
  have hs2eq : appReducer t2
      { s with
        shipments := s.shipments.map (fun x => if x.id == sh.id then
          { sh with approvalStatus := ApprovalStatus.rejected, rejectedAt := some t1 } else x)
        purchases := s.purchases.filter (fun p => !(p.shipmentId == some sh.id)) }
      (AppAction.UNREJECT_SHIPMENT sh.id)
      = { s with
          shipments := (s.shipments.map (fun x => if x.id == sh.id then
            { sh with approvalStatus := ApprovalStatus.rejected, rejectedAt := some t1 } else x)).map
              (fun x => if x.id == sh.id then
                { sh with approvalStatus := ApprovalStatus.pending, rejectedAt := none } else x)
          purchases := s.purchases.filter (fun p => !(p.shipmentId == some sh.id)) } := by
    simp only [appReducer, hfind1, bne_self_eq_false]
    rfl
  subst hs2
  rw [hs2eq] at hs3 ⊢
  have hff : (s.purchases.filter (fun p => !(p.shipmentId == some sh.id))).filter
        (fun p => !(p.shipmentId == some sh.id))
      = s.purchases.filter (fun p => !(p.shipmentId == some sh.id)) := by
    rw [List.filter_eq_self]
    intro a ha
    simpa using List.of_mem_filter ha
  have happ : shipmentPurchases
        { sh with
          approvalStatus := ApprovalStatus.approved
          purchaseOrderNumber := some (generatePurchaseOrderNumber today (existingPONumbers
            { s with
              shipments := (s.shipments.map (fun x => if x.id == sh.id then
                { sh with
                  approvalStatus := ApprovalStatus.rejected
                  rejectedAt := some t1 } else x)).map
                  (fun x => if x.id == sh.id then
                    { sh with approvalStatus := ApprovalStatus.pending, rejectedAt := none } else x)
              purchases := s.purchases.filter (fun p => !(p.shipmentId == some sh.id)) }))
          rejectedAt := none }
      = shipmentPurchases sh := by
    simp only [shipmentPurchases]
    rw [if_pos (by exact rfl), if_pos (bne_iff_ne.mpr hstatus)]
    rfl
  have hs3purch : (handleApproveShipment
      { s with
        shipments := (s.shipments.map (fun x => if x.id == sh.id then
          { sh with approvalStatus := ApprovalStatus.rejected, rejectedAt := some t1 } else x)).map
            (fun x => if x.id == sh.id then
              { sh with approvalStatus := ApprovalStatus.pending, rejectedAt := none } else x)
        purchases := s.purchases.filter (fun p => !(p.shipmentId == some sh.id)) } t3
      { sh with approvalStatus := ApprovalStatus.pending, rejectedAt := none } today).purchases
      = (s.purchases.filter (fun p => !(p.shipmentId == some sh.id))).filter
          (fun p => !(p.shipmentId == some sh.id))
        ++ shipmentPurchases
            { sh with
              approvalStatus := ApprovalStatus.approved
              purchaseOrderNumber := some (generatePurchaseOrderNumber today (existingPONumbers
                { s with
                  shipments := (s.shipments.map (fun x => if x.id == sh.id then
                    { sh with
                      approvalStatus := ApprovalStatus.rejected
                      rejectedAt := some t1 } else x)).map
                      (fun x => if x.id == sh.id then
                        { sh with
                          approvalStatus := ApprovalStatus.pending
                          rejectedAt := none } else x)
                  purchases := s.purchases.filter (fun p => !(p.shipmentId == some sh.id)) }))
              rejectedAt := none } := by
    simp only [handleApproveShipment, appReducer]
  subst hs3
  refine ⟨?_, ?_, ?_, ?_, ?_⟩
  · rw [currentTotalFor_eq_bucketTot, currentTotalFor_eq_bucketTot]
    show bucketTot pid w (s.purchases.filter (fun p => !(p.shipmentId == some sh.id)))
      = bucketTot pid w s.purchases - bucketTot pid w (shipmentPurchases sh)
    linarith
  · exact (find?_map_replace s.shipments sh.id
      { sh with approvalStatus := ApprovalStatus.rejected, rejectedAt := some t1 } rfl).trans
      (if_pos hany)
  · rw [currentTotalFor_eq_bucketTot, currentTotalFor_eq_bucketTot]
  · exact (find?_map_replace _ sh.id
      { sh with approvalStatus := ApprovalStatus.pending, rejectedAt := none } rfl).trans
      (if_pos hany1)
  · rw [currentTotalFor_eq_bucketTot, currentTotalFor_eq_bucketTot, hs3purch,
      bucketTot_append, hff, happ]
    linarith

/-- C3 witness: a concrete pending 10-pound tuna shipment, rejected at
day 5, unrejected at day 6 and approved at day 7. -/
theorem C3_reject_unreject_approve_quota_witness :
    currentTotalFor exC3S1 "tuna" 0
        = currentTotalFor exC3State "tuna" 0 - bucketTot "tuna" 0 (shipmentPurchases exC3Sh)
      ∧ currentTotalFor exC3S3 "tuna" 0 = currentTotalFor exC3State "tuna" 0 := by
  have h := C3_reject_unreject_approve_quota exC3State exC3Sh 5 6 7 exToday "tuna" 0
    exC3S1 exC3S2 exC3S3 exC3Sh1 exC3Sh
    (by with_unfolding_all decide) (by with_unfolding_all decide)
    (by with_unfolding_all decide) (by with_unfolding_all decide)
    (by with_unfolding_all decide) (by with_unfolding_all decide)
    (by with_unfolding_all decide) (by with_unfolding_all decide)
  exact ⟨h.1, h.2.2.2.2⟩

/-! ## C4 -/

/-- C4: getQuotaStatus returns percentage = currentTotal/maxQuota*100 when
maxQuota is positive and percentage = 0 otherwise, and the status is the
first matching rule of: over when currentTotal > maxQuota, near-max when
percentage >= 90, good when currentTotal >= minQuota, else under; in
particular a total exactly equal to maxQuota is never over while
maxQuota + 0.01 always is. -/
theorem C4_quota_classification (state : AppState) (pid : String) (w : ℚ) (qs : QuotaStatus)
    (h : getQuotaStatus state pid w = some qs) :
    (qs.maxQuota > 0 → qs.percentage = qs.currentTotal / qs.maxQuota * 100)
    ∧ (¬ qs.maxQuota > 0 → qs.percentage = 0)
    ∧ (qs.status = QuotaStatusKind.over ↔ qs.currentTotal > qs.maxQuota)
    ∧ (qs.status = QuotaStatusKind.nearMax
        ↔ (¬ qs.currentTotal > qs.maxQuota ∧ qs.percentage ≥ 90))
    ∧ (qs.status = QuotaStatusKind.good
        ↔ (¬ qs.currentTotal > qs.maxQuota ∧ ¬ qs.percentage ≥ 90
            ∧ qs.currentTotal ≥ qs.minQuota))
    ∧ (qs.status = QuotaStatusKind.under
        ↔ (¬ qs.currentTotal > qs.maxQuota ∧ ¬ qs.percentage ≥ 90
            ∧ ¬ qs.currentTotal ≥ qs.minQuota))
    ∧ (qs.currentTotal = qs.maxQuota → qs.status ≠ QuotaStatusKind.over)
    ∧ (qs.currentTotal = qs.maxQuota + 1 / 100 → qs.status = QuotaStatusKind.over) := by
  simp only [getQuotaStatus] at h
  cases hp : state.products.find? (fun p => p.id == pid) with
  | none => simp only [hp] at h; exact Option.noConfusion h
  | some product =>
    simp only [hp, Option.some.injEq] at h
    subst h
    refine ⟨fun hmq => by simp [if_pos hmq], fun hmq => by simp [if_neg hmq],
      ?_, ?_, ?_, ?_, ?_, ?_⟩
    · by_cases h1 : currentTotalFor state pid w > product.maxQuota <;>
        by_cases h2 : (if product.maxQuota > 0 then
            currentTotalFor state pid w / product.maxQuota * 100 else 0) ≥ 90 <;>
        by_cases h3 : currentTotalFor state pid w ≥ product.minQuota <;>
        simp [h1, h2, h3]
    · by_cases h1 : currentTotalFor state pid w > product.maxQuota <;>
        by_cases h2 : (if product.maxQuota > 0 then
            currentTotalFor state pid w / product.maxQuota * 100 else 0) ≥ 90 <;>
        by_cases h3 : currentTotalFor state pid w ≥ product.minQuota <;>
        simp [h1, h2, h3]
    · by_cases h1 : currentTotalFor state pid w > product.maxQuota <;>
        by_cases h2 : (if product.maxQuota > 0 then
            currentTotalFor state pid w / product.maxQuota * 100 else 0) ≥ 90 <;>
        by_cases h3 : currentTotalFor state pid w ≥ product.minQuota <;>
        simp [h1, h2, h3]
    · by_cases h1 : currentTotalFor state pid w > product.maxQuota <;>
        by_cases h2 : (if product.maxQuota > 0 then
            currentTotalFor state pid w / product.maxQuota * 100 else 0) ≥ 90 <;>
        by_cases h3 : currentTotalFor state pid w ≥ product.minQuota <;>
        simp [h1, h2, h3]
    · intro he
      have h1 : ¬ currentTotalFor state pid w > product.maxQuota := by
        rw [show currentTotalFor state pid w = product.maxQuota from he]
        exact lt_irrefl _
      simp only [if_neg h1]
      split_ifs <;> simp
    · intro he
      have h1 : currentTotalFor state pid w > product.maxQuota := by
        rw [show currentTotalFor state pid w = product.maxQuota + 1 / 100 from he]
        have : (0 : ℚ) < 1 / 100 := by norm_num
        linarith
      simp [if_pos h1]

/-- C4 witness: a 95-pound committed total against quota 0..100 sits at
percentage 95 and is classified near-max, not over. -/
theorem C4_quota_classification_witness :
    exC4QS.percentage = exC4QS.currentTotal / exC4QS.maxQuota * 100
      ∧ (exC4QS.status = QuotaStatusKind.over ↔ exC4QS.currentTotal > exC4QS.maxQuota) := by
  have h := C4_quota_classification exC4State "tuna" 0 exC4QS (by with_unfolding_all decide)
  exact ⟨h.1 (by with_unfolding_all decide), h.2.2.1⟩

/-! ## C5 -/

/-- C5 counterexample: the claim says only entries matching the strict
format PO-(8 digits)-(4 digits) are considered when computing the maximum
sequence.  The entry PO-20261011-99 does not match that format, yet the
generator takes its sequence 99 into account and returns PO-20261011-0100
instead of the PO-20261011-0001 the claim requires. -/
theorem C5_strict_format_counterexample :
    isValidPurchaseOrderNumber "PO-20261011-99" = false
      ∧ generatePurchaseOrderNumber ⟨2026, 10, 11⟩ ["PO-20261011-99"] = "PO-20261011-0100"
      ∧ generatePurchaseOrderNumber ⟨2026, 10, 11⟩ ["PO-20261011-99"] ≠ "PO-20261011-0001" := by
  with_unfolding_all decide

theorem maxSequence_eq_fold (dateTag : String) :
    ∀ (l : List String) (m : Int),
      (l.filter (fun po => jsStartsWith po dateTag)).foldl (fun m po =>
        match (jsSplitDash po).get? 2 with
        | some sequencePart =>
          if sequencePart == "" then m
          else
            match jsParseInt sequencePart with
            | some sequence => if sequence > m then sequence else m
            | none => m
        | none => m) m
      = (consideredSequences dateTag l).foldl max m := by
  intro l
  induction l with
  | nil => intro m; rfl
  | cons po rest ih =>
    intro m
    by_cases hs : jsStartsWith po dateTag = true
    · rw [List.filter_cons, if_pos hs]
      simp only [List.foldl_cons, consideredSequences, List.filterMap_cons, hs, if_true]
      cases hsp : (jsSplitDash po).get? 2 with
      | none => simp only [hsp]; exact ih m
      | some sp =>
        simp only [hsp]
        by_cases hemp : (sp == "") = true
        · simp only [hemp, if_true]
          exact ih m
        · simp only [hemp, if_false]
          cases hpi : jsParseInt sp with
          | none => simp only []; exact ih m
          | some n =>
            simp only []
            have hmax : (if n > m then n else m) = max m n := by
              rcases le_or_lt n m with hle | hlt
              · rw [if_neg (not_lt.mpr hle), max_eq_left hle]
              · rw [if_pos hlt, max_eq_right hlt.le]
            rw [hmax]
            exact ih (max m n)
    · rw [List.filter_cons, if_neg hs]
      simp only [consideredSequences, List.filterMap_cons]
      have hs2 : jsStartsWith po dateTag = false := by simpa using hs
      simp only [hs2, Bool.false_eq_true, if_false]
      exact ih m

/-- C5 amended: generate returns PO-YYYYMMDD-NNNN where NNNN is one more
than the maximum sequence over the considered entries (zero-padded to at
least four digits), where an entry is considered when it starts with
today's PO-YYYYMMDD prefix and its third dash-separated field is nonempty
and parses under parseInt semantics; strict PO-(8 digits)-(4 digits)
format is NOT required for an entry to be considered.  Entries that fail
to parse are ignored without error, and when no entry is considered the
sequence is 0001. -/
theorem C5_po_generation_characterization (today : PODate) (existing : List String) :
    generatePurchaseOrderNumber today existing
      = poDateTag today ++ "-"
          ++ padStart
              (toString ((consideredSequences (poDateTag today) existing).foldl max 0 + 1)) 4
              (Char.ofNat 48)
    ∧ (consideredSequences (poDateTag today) existing = [] →
        generatePurchaseOrderNumber today existing = poDateTag today ++ "-" ++ "0001") := by
  have hmain : generatePurchaseOrderNumber today existing
      = poDateTag today ++ "-"
          ++ padStart
              (toString ((consideredSequences (poDateTag today) existing).foldl max 0 + 1)) 4
              (Char.ofNat 48) := by
    simp only [generatePurchaseOrderNumber]
    rw [maxSequence_eq_fold (poDateTag today) existing 0]
  refine ⟨hmain, fun hnil => ?_⟩
  rw [hmain, hnil]
  rfl

/-- C5 amended witness: with no entry carrying today's date tag, the first
number of the day is issued. -/
theorem C5_po_generation_characterization_witness :
    generatePurchaseOrderNumber ⟨2026, 1, 2⟩ ["JUNK", "PO-20251231-0005"]
      = poDateTag ⟨2026, 1, 2⟩ ++ "-" ++ "0001" :=
  (C5_po_generation_characterization ⟨2026, 1, 2⟩ ["JUNK", "PO-20251231-0005"]).2 (by decide)

/-! ## C6 -/

/-- C6 counterexample: a WeeklyQuota override record (minQuota 1,
maxQuota 2) exists for the pair ("tuna", week 0), and the committed total
for that week is 5, yet getQuotaStatus reports the product's static bounds
(10, 100) and status under; under the override bounds the total would be
over (5 > 2), so the override is not used by the computation. -/
theorem C6_weekly_quota_override_counterexample :
    exC6State.weeklyQuotas = [exC6Quota]
      ∧ exC6Quota.productId = "tuna"
      ∧ exC6Quota.weekStartDate = getWeekStart 0
      ∧ exC6Quota.minQuota = 1
      ∧ exC6Quota.maxQuota = 2
      ∧ (getQuotaStatus exC6State "tuna" 0).map (fun qs => (qs.minQuota, qs.maxQuota, qs.status))
          = some (10, 100, QuotaStatusKind.under) := by
  with_unfolding_all decide

/-- C6 amended: WeeklyQuota override records are stored and updated by
SET_WEEKLY_QUOTA keyed on (productId, weekStartDate), but the quota status
computation never consults them: getQuotaStatus is invariant under erasing
or setting weekly quotas, and the bounds it reports always come from the
catalog product's static minQuota and maxQuota, whether or not an override
record exists. -/
theorem C6_weekly_quota_ignored (state : AppState) (pid : String) (w : ℚ) (q : WeeklyQuota)
    (now : ℚ) :
    getQuotaStatus { state with weeklyQuotas := [] } pid w = getQuotaStatus state pid w
    ∧ getQuotaStatus (appReducer now state (AppAction.SET_WEEKLY_QUOTA q)) pid w
        = getQuotaStatus state pid w
    ∧ (∀ qs, getQuotaStatus state pid w = some qs →
        state.products.find? (fun p => p.id == pid) = some qs.product
          ∧ qs.minQuota = qs.product.minQuota ∧ qs.maxQuota = qs.product.maxQuota) := by
  refine ⟨rfl, rfl, ?_⟩
  intro qs h
  simp only [getQuotaStatus] at h
  cases hp : state.products.find? (fun p => p.id == pid) with
  | none => simp only [hp] at h; exact Option.noConfusion h
  | some product =>
    simp only [hp, Option.some.injEq] at h
    subst h
    exact ⟨rfl, rfl, rfl⟩

/-- C6 amended witness: setting the override record does not change the
reported status, and the reported bounds are the product's static ones. -/
theorem C6_weekly_quota_ignored_witness :
    getQuotaStatus (appReducer 0 exC6State (AppAction.SET_WEEKLY_QUOTA exC6Quota)) "tuna" 0
        = getQuotaStatus exC6State "tuna" 0
      ∧ exC6QS.minQuota = exC6QS.product.minQuota := by
  have h := C6_weekly_quota_ignored exC6State "tuna" 0 exC6Quota 0
  exact ⟨h.2.1, (h.2.2 exC6QS (by with_unfolding_all decide)).2.1⟩

/-! ## C7 -/

/-- C7 counterexample: unrejecting the pending (not rejected) shipment p1
should, per the claim, fail with InvalidTransitionError; the reducer
instead completes normally and returns the store unchanged (it has no
error channel at all), so its embedding into the error monad disagrees
with the spec-modelled transition.  Likewise rejecting an absent id
returns the store unchanged rather than failing with NotFoundError. -/
theorem C7_transition_error_counterexample :
    specUnrejectTransition exC7State "p1" = Except.error TransitionError.invalidTransitionError
      ∧ Except.ok (appReducer 0 exC7State (AppAction.UNREJECT_SHIPMENT "p1"))
          ≠ specUnrejectTransition exC7State "p1"
      ∧ appReducer 0 exC7State (AppAction.UNREJECT_SHIPMENT "p1") = exC7State
      ∧ appReducer 0 exC7State (AppAction.REJECT_SHIPMENT "absent") = exC7State := by
  with_unfolding_all decide

/-- C7 amended: the reducer raises no NotFoundError or
InvalidTransitionError (no such errors exist in the code); a reject or
unreject with an id absent from the store, an unreject of a shipment that
is not rejected, and a delete of an absent id are silent no-ops returning
the store unchanged. -/
theorem C7_transitions_silent_noop (s : AppState) (now : ℚ) (shipmentId : String) :
    (s.shipments.find? (fun sh => sh.id == shipmentId) = none →
      appReducer now s (AppAction.REJECT_SHIPMENT shipmentId) = s)
    ∧ (s.shipments.find? (fun sh => sh.id == shipmentId) = none →
      appReducer now s (AppAction.UNREJECT_SHIPMENT shipmentId) = s)
    ∧ (∀ sh, s.shipments.find? (fun x => x.id == shipmentId) = some sh →
        sh.approvalStatus ≠ ApprovalStatus.rejected →
        appReducer now s (AppAction.UNREJECT_SHIPMENT shipmentId) = s)
    ∧ ((∀ sh ∈ s.shipments, sh.id ≠ shipmentId) →
        (∀ p ∈ s.purchases, p.shipmentId ≠ some shipmentId) →
        appReducer now s (AppAction.DELETE_SHIPMENT shipmentId) = s) := by
  refine ⟨?_, ?_, ?_, ?_⟩
  · intro h
    simp only [appReducer, h]
  · intro h
    simp only [appReducer, h]
  · intro sh hfind hst
    simp only [appReducer, hfind]
    rw [if_pos (bne_iff_ne.mpr hst)]
  · intro hsh hp
    simp only [appReducer]
    have h1 : s.shipments.filter (fun x => !(x.id == shipmentId)) = s.shipments := by
      rw [List.filter_eq_self]
      intro a ha
      simpa using hsh a ha
    have h2 : s.purchases.filter (fun p => !(p.shipmentId == some shipmentId)) = s.purchases := by
      rw [List.filter_eq_self]
      intro a ha
      simpa using hp a ha
    rw [h1, h2]

/-- C7 amended witness: unrejecting the pending shipment p1 and deleting
an absent id both leave the concrete store untouched. -/
theorem C7_transitions_silent_noop_witness :
    appReducer 0 exC7State (AppAction.UNREJECT_SHIPMENT "p1") = exC7State
      ∧ appReducer 0 exC7State (AppAction.DELETE_SHIPMENT "absent") = exC7State := by
  have h := C7_transitions_silent_noop exC7State 0 "p1"
  have h2 := C7_transitions_silent_noop exC7State 0 "absent"
  exact ⟨h.2.2.1 exC7Sh (by with_unfolding_all decide) (by with_unfolding_all decide),
    h2.2.2.2 (by with_unfolding_all decide) (by with_unfolding_all decide)⟩

/-! ## C8 -/

/-- C8 counterexample: submitting a 50-pound tuna shipment against quota
0..40 creates it pending, and the resulting (reachable) store holds its
derived purchase in the quota-contributing index: the tuna bucket total
for that week is 50, not 0, so a pending shipment does contribute to quota
totals. -/
theorem C8_pending_contributes_counterexample :
    (handleSubmit exC8State 0 none "s8" "S" 3 [exC8PP] exToday none).map
        (fun r => (r.1.approvalStatus, currentTotalFor r.2 "tuna" 3,
          r.2.purchases.map Purchase.shipmentId))
      = some (ApprovalStatus.pending, 50, [some "s8"])
      ∧ (50 : ℚ) ≠ 0 := by
  with_unfolding_all decide

/-- C8 amended: the purchase index is keyed on approvalStatus not being
rejected: ADD_SHIPMENT adds the derived purchases for any non-rejected
shipment (pending shipments created by submission do contribute to quota
totals); only rejection removes a shipment's purchases from the index, and
unreject leaves the index unchanged (so only a shipment returned to
pending via unreject contributes nothing until re-approved). -/
theorem C8_purchase_index_by_status (s : AppState) (now : ℚ) (sh : Shipment) (id2 : String) :
    (sh.approvalStatus ≠ ApprovalStatus.rejected →
      (appReducer now s (AppAction.ADD_SHIPMENT sh)).purchases
        = s.purchases ++ sh.products.map (mkShipmentPurchase sh))
    ∧ (∀ rsh, s.shipments.find? (fun x => x.id == id2) = some rsh →
        (appReducer now s (AppAction.REJECT_SHIPMENT id2)).purchases.filter
            (fun p => p.shipmentId == some id2) = [])
    ∧ (appReducer now s (AppAction.UNREJECT_SHIPMENT id2)).purchases = s.purchases := by
  refine ⟨?_, ?_, ?_⟩
  · intro h
    simp only [appReducer, shipmentPurchases]
    rw [if_pos (bne_iff_ne.mpr h)]
  · intro rsh hf
    simp only [appReducer, hf]
    rw [List.filter_eq_nil_iff]
    intro a ha
    have := List.of_mem_filter ha
    simp only [Bool.not_eq_true'] at this
    simp [this]
  · cases hf : s.shipments.find? (fun x => x.id == id2) with
    | none => simp only [appReducer, hf]
    | some rsh =>
      simp only [appReducer, hf]
      by_cases hb : (rsh.approvalStatus != ApprovalStatus.rejected) = true
      · rw [if_pos hb]
      · rw [if_neg hb]

/-- C8 amended witness: adding the concrete pending shipment s8 appends
its derived purchase to the index. -/
theorem C8_purchase_index_by_status_witness :
    (appReducer 0 exC8State (AppAction.ADD_SHIPMENT exC8Sh)).purchases
      = exC8State.purchases ++ exC8Sh.products.map (mkShipmentPurchase exC8Sh) := by
  have h := C8_purchase_index_by_status exC8State 0 exC8Sh "s8"
  exact h.1 (by with_unfolding_all decide)

/-! ## C9 -/

/-- C9: the retention sweep removes exactly the shipments that are
rejected with a rejectedAt at least 30 days in the past, and keeps every
other shipment: a shipment rejected 31 days ago is removed, one rejected
29 days ago is retained, shipments with status pending or approved are
never removed, and the purchase index is untouched. -/
theorem C9_retention_sweep_exact (state : AppState) (now : ℚ) :
    (∀ sh, sh ∈ (appReducer now state AppAction.DELETE_OLD_REJECTED).shipments
      ↔ (sh ∈ state.shipments
          ∧ ¬(sh.approvalStatus = ApprovalStatus.rejected
              ∧ ∃ t, sh.rejectedAt = some t ∧ t ≤ now - 30)))
    ∧ (∀ sh ∈ state.shipments, sh.approvalStatus = ApprovalStatus.rejected →
        sh.rejectedAt = some (now - 31) →
        sh ∉ (appReducer now state AppAction.DELETE_OLD_REJECTED).shipments)
    ∧ (∀ sh ∈ state.shipments, sh.rejectedAt = some (now - 29) →
        sh ∈ (appReducer now state AppAction.DELETE_OLD_REJECTED).shipments)
    ∧ (∀ sh ∈ state.shipments,
        sh.approvalStatus = ApprovalStatus.pending
            ∨ sh.approvalStatus = ApprovalStatus.approved →
        sh ∈ (appReducer now state AppAction.DELETE_OLD_REJECTED).shipments)
    ∧ (appReducer now state AppAction.DELETE_OLD_REJECTED).purchases = state.purchases := by
  have hmem_iff : ∀ sh, sh ∈ (appReducer now state AppAction.DELETE_OLD_REJECTED).shipments
      ↔ (sh ∈ state.shipments
          ∧ ¬(sh.approvalStatus = ApprovalStatus.rejected
              ∧ ∃ t, sh.rejectedAt = some t ∧ t ≤ now - 30)) := by
    intro sh
    have hkeep : ((if sh.approvalStatus != ApprovalStatus.rejected then true
          else
            match sh.rejectedAt with
            | none => true
            | some t => decide (t > now - 30)) = true)
        ↔ ¬(sh.approvalStatus = ApprovalStatus.rejected
            ∧ ∃ t, sh.rejectedAt = some t ∧ t ≤ now - 30) := by
      by_cases hst : sh.approvalStatus = ApprovalStatus.rejected
      · rw [if_neg (by simp [hst])]
        cases hra : sh.rejectedAt with
        | none => simp [hst, hra]
        | some t =>
          simp only [hst, hra, decide_eq_true_eq, Option.some.injEq, true_and]
          constructor
          · rintro hgt ⟨t2, ht2, hle⟩
            rw [← ht2] at hle
            linarith
          · intro hn
            by_contra hng
            exact hn ⟨t, rfl, by linarith [not_lt.mp hng]⟩
      · rw [if_pos (bne_iff_ne.mpr hst)]
        simp [hst]
    simp only [appReducer]
    rw [List.mem_filter]
    exact and_congr_right (fun _ => hkeep)
  refine ⟨hmem_iff, ?_, ?_, ?_, rfl⟩
  · intro sh hmem hst hra hin
    rcases (hmem_iff sh).mp hin with ⟨_, hn⟩
    exact hn ⟨hst, now - 31, hra, by linarith⟩
  · intro sh hmem hra
    refine (hmem_iff sh).mpr ⟨hmem, ?_⟩
    rintro ⟨hst, t, hra2, hle⟩
    rw [hra] at hra2
    have : t = now - 29 := by
      exact (Option.some.injEq _ _ ▸ hra2).symm ▸ rfl
    rw [this] at hle
    linarith
  · intro sh hmem hor
    refine (hmem_iff sh).mpr ⟨hmem, ?_⟩
    rintro ⟨hst, _⟩
    rcases hor with h | h <;> rw [h] at hst <;> exact ApprovalStatus.noConfusion hst

/-- C9 witness: with now = 100, the shipment rejected at day 69 (31 days
old) is swept away, the one rejected at day 71 (29 days old) stays, and
the pending shipment stays. -/
theorem C9_retention_sweep_exact_witness :
    exC9Old ∉ (appReducer 100 exC9State AppAction.DELETE_OLD_REJECTED).shipments
      ∧ exC9New ∈ (appReducer 100 exC9State AppAction.DELETE_OLD_REJECTED).shipments
      ∧ exC7Sh ∈ (appReducer 100 exC9State AppAction.DELETE_OLD_REJECTED).shipments := by
  have h := C9_retention_sweep_exact exC9State 100
  refine ⟨h.2.1 exC9Old (by with_unfolding_all decide) (by with_unfolding_all decide) ?_,
    h.2.2.1 exC9New (by with_unfolding_all decide) ?_,
    h.2.2.2.1 exC7Sh (by with_unfolding_all decide) (Or.inl (by with_unfolding_all decide))⟩
  · show exC9Old.rejectedAt = some (100 - 31)
    with_unfolding_all decide
  · show exC9New.rejectedAt = some (100 - 29)
    with_unfolding_all decide

/-! ## C10 -/

/-- C10: the retention sweep retains every rejected shipment whose
rejectedAt field is missing, regardless of the sweep times: no number of
sweep runs ever removes it. -/
theorem C10_missing_rejectedAt_never_removed (state : AppState) (sh : Shipment)
    (hst : sh.approvalStatus = ApprovalStatus.rejected) (hra : sh.rejectedAt = none)
    (times : List ℚ) (hmem : sh ∈ state.shipments) :
    sh ∈ (runSweeps state times).shipments := by
  revert hmem
  induction times generalizing state with
  | nil => intro hmem; exact hmem
  | cons t rest ih =>
    intro hmem
    have hmem2 : sh ∈ (appReducer t state AppAction.DELETE_OLD_REJECTED).shipments := by
      simp only [appReducer]
      rw [List.mem_filter]
      refine ⟨hmem, ?_⟩
      simp [hst, hra]
    exact ih (appReducer t state AppAction.DELETE_OLD_REJECTED) hmem2

/-- C10 witness: a rejected shipment with no rejectedAt survives sweeps at
days 100 and 1000000. -/
theorem C10_missing_rejectedAt_never_removed_witness :
    exC10Sh ∈ (runSweeps exC10State [100, 1000000]).shipments :=
  C10_missing_rejectedAt_never_removed exC10State exC10Sh (by with_unfolding_all decide)
    (by with_unfolding_all decide) [100, 1000000] (by with_unfolding_all decide)

end PurchasingApp
